import Mathlib

/-!
# Verification of the Quark-Web transfer core

Shallow embedding of the transfer-orchestration core of the Quark-Web
repository, translated from the JavaScript sources:

* `src/js/utils/urlUtils.js` — share-URL parsing (`getIdFromUrl`,
  `isValidQuarkUrl`);
* `src/js/services/QuarkWebService.js` — the HTTP transport helper
  (`request`), the job-polling loop (`task`) and the five-step transfer
  sequence (`store`);
* `src/js/services/IndexedDBService.js` — the duplicate-detection index
  (`fileExists`, `fileExistsByShareLink`, `checkDuplicate`);
* `src/js/components/TransferPanel.js` — the batch-transfer loop
  (`handleBatchTransfer`).

Asynchronous collaborators (the upstream HTTP API, the IndexedDB record
store, progress callbacks) are modelled as explicit environment values; a
JavaScript exception is modelled as `Except.error` and JavaScript's
falsy-string sentinels (`''`, absent fields) as the empty string or
`Option.none`, as each source site uses them.
-/

namespace QuarkWeb

/-! ## Link parsing (`src/js/utils/urlUtils.js`)

`getIdFromUrl` applies the JS regex `/\/s\/(\w+)/` (unanchored) and returns
the first capture, or `''` when there is no match.  `isValidQuarkUrl`
applies `/^https:\/\/pan\.quark\.cn\/s\/\w+/.test`, i.e. checks that the
string starts with the literal host prefix followed by at least one word
character.  A JS word character (`\w`) is `[A-Za-z0-9_]`. -/

def isWordChar (c : Char) : Bool :=
  c.isAlphanum || c = '_'

/-- One attempt of the regex `\/s\/(\w+)` at the head of the character
list: it succeeds iff the list starts with `/s/` followed by at least one
word character, and then captures the maximal word-character run. -/
def matchAt (l : List Char) : Option (List Char) :=
  match l with
  | a :: b :: c :: rest =>
    if a = '/' ∧ b = 's' ∧ c = '/' then
      match rest.takeWhile isWordChar with
      | [] => none
      | r => some r
    else none
  | _ => none

/-- The unanchored regex search of `url.match(/\/s\/(\w+)/)`: try the
pattern at every position from left to right and return the first
capture; `[]` encodes "no match". -/
def scanId : List Char → List Char
  | [] => []
  | a :: t =>
    match matchAt (a :: t) with
    | some r => r
    | none => scanId t

/-- `getIdFromUrl` of `src/js/utils/urlUtils.js`: the first capture of
`/\/s\/(\w+)/`, or the empty string if the pattern never matches. -/
def getIdFromUrl (url : String) : String :=
  String.mk (scanId url.data)

/-- The 23 characters of the literal regex head
`^https:\/\/pan\.quark\.cn\/s\/`. -/
def canonHead : List Char :=
  ['h','t','t','p','s',':','/','/','p','a','n','.','q','u','a','r','k','.','c','n','/','s','/']

/-- `isValidQuarkUrl` of `src/js/utils/urlUtils.js`: the test of the
anchored regex `/^https:\/\/pan\.quark\.cn\/s\/\w+/`, i.e. the string
starts with the canonical prefix followed by at least one word
character. -/
def isValidQuarkUrl (s : String) : Bool :=
  canonHead.isPrefixOf s.data &&
    match s.data.drop canonHead.length with
    | c :: _ => isWordChar c
    | [] => false

/-- Whether the pattern `\/s\/(\w+)` matches anywhere in the list. -/
def hasMatch : List Char → Bool
  | [] => false
  | a :: t => (matchAt (a :: t)).isSome || hasMatch t

example : getIdFromUrl "https://pan.quark.cn/s/abc123" = "abc123" := by decide
example : getIdFromUrl "no share id here" = "" := by decide
example : getIdFromUrl "x/s/y" = "y" := by decide
example : isValidQuarkUrl "https://pan.quark.cn/s/abc123" = true := by decide
example : isValidQuarkUrl "x/s/y" = false := by decide

lemma matchAt_ne_nil {l r : List Char} (h : matchAt l = some r) : r ≠ [] := by
  unfold matchAt at h
  match l with
  | [] => simp at h
  | [a] => simp at h
  | [a, b] => simp at h
  | a :: b :: c :: rest =>
    by_cases hc : a = '/' ∧ b = 's' ∧ c = '/'
    · simp only [hc, if_true] at h
      match hr : rest.takeWhile isWordChar with
      | [] => rw [hr] at h; simp at h
      | x :: xs => rw [hr] at h; simp at h; simp [← h]
    · simp [hc] at h

lemma scanId_cons (a : Char) (t : List Char) :
    scanId (a :: t) = match matchAt (a :: t) with
      | some r => r
      | none => scanId t := by
  rfl

lemma scanId_cons_none {a : Char} {t : List Char} (h : matchAt (a :: t) = none) :
    scanId (a :: t) = scanId t := by
  rw [scanId_cons, h]

lemma matchAt_none_head {a : Char} (t : List Char) (h : ¬ a = '/') :
    matchAt (a :: t) = none := by
  unfold matchAt
  match t with
  | [] => rfl
  | [b] => rfl
  | b :: c :: rest => simp [h]

lemma matchAt_none_snd (a : Char) {b : Char} (t : List Char) (h : ¬ b = 's') :
    matchAt (a :: b :: t) = none := by
  unfold matchAt
  match t with
  | [] => rfl
  | c :: rest => simp [h]

/-- `scanId` on `[]` has no match, and on a cons it finds one iff
`hasMatch` says so. -/
lemma scanId_eq_nil_iff (l : List Char) : scanId l = [] ↔ hasMatch l = false := by
  induction l with
  | nil => simp [scanId, hasMatch]
  | cons a t ih =>
    rw [scanId_cons]
    unfold hasMatch
    match h : matchAt (a :: t) with
    | some r =>
      simp [h, Option.isSome]
      exact matchAt_ne_nil h
    | none =>
      simp [h, Option.isSome]
      exact ih

/-- Running the regex search over the canonical prefix: the first 20
positions do not match, position 20 (`/s/` + word char) does, and the
capture is the maximal word-character run after it. -/
lemma scanId_canonHead (c : Char) (t : List Char) (h : isWordChar c = true) :
    scanId (canonHead ++ c :: t) = c :: t.takeWhile isWordChar := by
  show scanId ('h' :: 't' :: 't' :: 'p' :: 's' :: ':' :: '/' :: '/' :: 'p' ::
      'a' :: 'n' :: '.' :: 'q' :: 'u' :: 'a' :: 'r' :: 'k' :: '.' :: 'c' ::
      'n' :: '/' :: 's' :: '/' :: c :: t)
    = c :: t.takeWhile isWordChar
  rw [scanId_cons_none (matchAt_none_head _ (by decide))]
  rw [scanId_cons_none (matchAt_none_head _ (by decide))]
  rw [scanId_cons_none (matchAt_none_head _ (by decide))]
  rw [scanId_cons_none (matchAt_none_head _ (by decide))]
  rw [scanId_cons_none (matchAt_none_head _ (by decide))]
  rw [scanId_cons_none (matchAt_none_head _ (by decide))]
  rw [scanId_cons_none (matchAt_none_snd _ _ (by decide))]
  rw [scanId_cons_none (matchAt_none_snd _ _ (by decide))]
  rw [scanId_cons_none (matchAt_none_head _ (by decide))]
  rw [scanId_cons_none (matchAt_none_head _ (by decide))]
  rw [scanId_cons_none (matchAt_none_head _ (by decide))]
  rw [scanId_cons_none (matchAt_none_head _ (by decide))]
  rw [scanId_cons_none (matchAt_none_head _ (by decide))]
  rw [scanId_cons_none (matchAt_none_head _ (by decide))]
  rw [scanId_cons_none (matchAt_none_head _ (by decide))]
  rw [scanId_cons_none (matchAt_none_head _ (by decide))]
  rw [scanId_cons_none (matchAt_none_head _ (by decide))]
  rw [scanId_cons_none (matchAt_none_head _ (by decide))]
  rw [scanId_cons_none (matchAt_none_head _ (by decide))]
  rw [scanId_cons_none (matchAt_none_head _ (by decide))]
  rw [scanId_cons]
  have hm : matchAt ('/' :: 's' :: '/' :: c :: t)
      = some (c :: t.takeWhile isWordChar) := by
    unfold matchAt
    simp [List.takeWhile, h]
  rw [hm]

/-- C7 (counterexample): the claim says every string that is not a valid
canonical share URL yields the null sentinel, but `getIdFromUrl` applies
its pattern anywhere in the string: `"x/s/y"` is not a canonical share URL
(`isValidQuarkUrl` rejects it) yet `getIdFromUrl` extracts `"y"`, which is
not the empty-string sentinel the code uses for "absent". -/
theorem spec_C7_counterexample :
    isValidQuarkUrl "x/s/y" = false ∧
      getIdFromUrl "x/s/y" = "y" ∧ getIdFromUrl "x/s/y" ≠ "" := by
  refine ⟨by decide, by decide, by decide⟩

/-- C7 (amended): for a string of the canonical form — the prefix
`https://pan.quark.cn/s/` followed by a word character — `getIdFromUrl`
returns exactly the maximal word-character run after the prefix (the
identifier segment); and in general it returns the empty-string sentinel
(the code's encoding of "null") exactly when the pattern `/s/` followed by
a word character occurs nowhere in the string.  Strings that contain such
an occurrence without being canonical share URLs also yield the captured
run rather than the sentinel. -/
theorem spec_C7_amended :
    (∀ (c : Char) (t : List Char), isWordChar c = true →
        getIdFromUrl (String.mk (canonHead ++ c :: t))
          = String.mk (c :: t.takeWhile isWordChar)) ∧
      (∀ s : String, getIdFromUrl s = "" ↔ hasMatch s.data = false) := by
  constructor
  · intro c t h
    unfold getIdFromUrl
    rw [show (String.mk (canonHead ++ c :: t)).data = canonHead ++ c :: t from rfl]
    rw [scanId_canonHead c t h]
  · intro s
    unfold getIdFromUrl
    rw [show ("" : String) = String.mk [] from rfl, String.ext_iff]
    rw [show (String.mk (scanId s.data)).data = scanId s.data from rfl]
    rw [show (String.mk []).data = ([] : List Char) from rfl]
    exact scanId_eq_nil_iff s.data

/-- Witness for C7 (amended): the canonical-form clause evaluated at the
identifier `abc` followed by a query suffix. -/
theorem spec_C7_amended_witness :
    getIdFromUrl (String.mk (canonHead ++ 'a' :: ['b', 'c', '?', 'x']))
      = String.mk ('a' :: ['b', 'c', '?', 'x'].takeWhile isWordChar) :=
  spec_C7_amended.1 'a' ['b', 'c', '?', 'x'] (by decide)

/-- C8: whenever `isValidQuarkUrl` accepts a string, `getIdFromUrl`
extracts a non-empty identifier from it — the validator and the extractor
are consistent. -/
theorem spec_C8_valid_url_gives_id (s : String) (h : isValidQuarkUrl s = true) :
    getIdFromUrl s ≠ "" := by
  unfold isValidQuarkUrl at h
  rw [Bool.and_eq_true] at h
  obtain ⟨hpre, hrest⟩ := h
  rw [List.isPrefixOf_iff_prefix] at hpre
  obtain ⟨t, ht⟩ := hpre
  have hdrop : s.data.drop canonHead.length = t := by
    rw [← ht]; exact List.drop_left _ _
  rw [hdrop] at hrest
  cases t with
  | nil => simp at hrest
  | cons c t' =>
    have hw : isWordChar c = true := hrest
    unfold getIdFromUrl
    rw [← ht, scanId_canonHead c t' hw]
    intro hcontra
    have hdata := congrArg String.data hcontra
    simp at hdata

/-- Witness for C8 at the concrete share URL of the end-to-end scenario. -/
theorem spec_C8_witness :
    isValidQuarkUrl "https://pan.quark.cn/s/abc123" = true ∧
      getIdFromUrl "https://pan.quark.cn/s/abc123" ≠ "" :=
  ⟨by decide, spec_C8_valid_url_gives_id "https://pan.quark.cn/s/abc123" (by decide)⟩

/-! ## Transport helper (`QuarkWebService.request`, lines 63–107)

One HTTP attempt either throws at the transport layer (timeout / abort /
connection reset — `fetch` rejects), or yields a response with a status
code, an error text and a JSON body (`none` models a body on which
`response.json()` throws).  In the source, a non-2xx status is converted
into a thrown `Error` *inside* the `try` block, so it lands in the same
`catch` as transport failures; the loop then proceeds to the next attempt.
The environment `beh` gives the result of each attempt, indexed from 1. -/

inductive AttemptResult where
  | throwErr (msg : String)
  | response (status : Nat) (text : String) (body : Option String)
deriving DecidableEq

/-- What a single attempt of the `for` loop body produces: the parsed
body on a 2xx response with valid JSON, otherwise the thrown error
(`HTTP <status>: <text>` for a non-2xx status, mirroring line 82). -/
def attemptOutcome : AttemptResult → Except String String
  | .throwErr m => .error m
  | .response st tx body =>
    if 200 ≤ st ∧ st ≤ 299 then
      match body with
      | some b => .ok b
      | none => .error "invalid json"
    else .error ("HTTP " ++ toString st ++ ": " ++ tx)

/-- The retry loop of `request`, returning the final result together with
the number of attempts actually executed.  `fuel` is the number of
attempts still allowed; the current attempt index is
`retries - fuel + 1`; `lastError` mirrors the `lastError` variable
(`"undefined"` standing for its initial undefined value, thrown only when
`retries = 0`). -/
def requestLoop (beh : Nat → AttemptResult) (retries : Nat) :
    Nat → String → Except String String × Nat
  | 0, lastError => (.error lastError, 0)
  | fuel + 1, _ =>
    let attempt := retries - fuel
    match attemptOutcome (beh attempt) with
    | .ok body => (.ok body, 1)
    | .error e =>
      let rest := requestLoop beh retries fuel e
      (rest.1, rest.2 + 1)

/-- `request` instrumented with the attempt count. -/
def requestRun (beh : Nat → AttemptResult) (retries : Nat) :
    Except String String × Nat :=
  requestLoop beh retries retries "undefined"

/-- `QuarkWebService.request`: result of the 3-attempt loop (the
`retries` parameter defaults to 3 in the source). -/
def request (beh : Nat → AttemptResult) (retries : Nat) : Except String String :=
  (requestRun beh retries).1

/-- Attempt behavior refuting C2: attempt 1 receives HTTP 500, attempt 2
succeeds. -/
def behC2 : Nat → AttemptResult := fun i =>
  if i = 1 then .response 500 "Internal Server Error" none
  else .response 200 "" (some "body2")

example : requestRun behC2 3 = (.ok "body2", 2) := by rfl

/-- C2 (counterexample): attempt 1 of this call receives a non-2xx HTTP
response, yet the call is **not** treated as definitively failed: a second
attempt is executed (the attempt counter reaches 2) and the call returns
the second attempt's body.  In the source the `throw` for a non-2xx status
sits inside the `try`, so it is caught and retried exactly like a
transport failure. -/
theorem spec_C2_counterexample :
    attemptOutcome (behC2 1) = .error "HTTP 500: Internal Server Error" ∧
      requestRun behC2 3 = (.ok "body2", 2) := by
  refine ⟨by rfl, by rfl⟩

/-- C2 (amended): every failed attempt — transport-level failure, JSON
parse failure, or a non-2xx HTTP status (which is converted into a thrown
error) — consumes one unit of the 3-attempt retry budget; the call
returns the body of the first successful attempt, and fails only when all
3 attempts fail, with the last attempt's error. -/
theorem spec_C2_amended (beh : Nat → AttemptResult) :
    (∀ b, attemptOutcome (beh 1) = .ok b → requestRun beh 3 = (.ok b, 1)) ∧
    (∀ e₁ b, attemptOutcome (beh 1) = .error e₁ →
      attemptOutcome (beh 2) = .ok b → requestRun beh 3 = (.ok b, 2)) ∧
    (∀ e₁ e₂ b, attemptOutcome (beh 1) = .error e₁ →
      attemptOutcome (beh 2) = .error e₂ →
      attemptOutcome (beh 3) = .ok b → requestRun beh 3 = (.ok b, 3)) ∧
    (∀ e₁ e₂ e₃, attemptOutcome (beh 1) = .error e₁ →
      attemptOutcome (beh 2) = .error e₂ →
      attemptOutcome (beh 3) = .error e₃ → requestRun beh 3 = (.error e₃, 3)) := by
  refine ⟨?_, ?_, ?_, ?_⟩
  · intro b h1
    simp [requestRun, requestLoop, h1]
  · intro e₁ b h1 h2
    simp [requestRun, requestLoop, h1, h2]
  · intro e₁ e₂ b h1 h2 h3
    simp [requestRun, requestLoop, h1, h2, h3]
  · intro e₁ e₂ e₃ h1 h2 h3
    simp [requestRun, requestLoop, h1, h2, h3]

/-- Witness for C2 (amended): the second clause evaluated on `behC2`,
whose first attempt is a non-2xx response and whose second attempt
succeeds. -/
theorem spec_C2_amended_witness :
    requestRun behC2 3 = (.ok "body2", 2) :=
  (spec_C2_amended behC2).2.1 "HTTP 500: Internal Server Error" "body2"
    (by rfl) (by rfl)

/-! ## Duplicate index (`src/js/services/IndexedDBService.js`)

A stored transfer record, restricted to the fields the duplicate check
reads; `none` models an absent (`undefined`) field, and `a === b` on a
possibly-absent field is `r.field = some key`.  The environment `DBEnv`
carries the record store together with oracles for the infrastructure
failure modes of IndexedDB requests (`request.onerror` firing) and for
which indexes exist (the version-2 upgrade creates the three link
indexes). -/

structure FileRecord where
  fileName : Option String
  shareLink : Option String
  shareUrl : Option String
  originalUrl : Option String
deriving DecidableEq

structure DBEnv where
  records : List FileRecord
  /-- the `fileName`-index `get` request fires `onerror` -/
  nameGetFails : Bool
  /-- which of the link indexes exist (`store.indexNames.contains`) -/
  idxExists : String → Bool
  /-- a link-index `get` request fires `onerror` -/
  idxGetFails : String → Bool
  /-- the `getAll` fallback request fires `onerror` -/
  getAllFails : Bool

/-- The field a link index with the given name indexes. -/
def linkField (r : FileRecord) : String → Option String
  | "shareLink" => r.shareLink
  | "shareUrl" => r.shareUrl
  | "originalUrl" => r.originalUrl
  | _ => none

/-- `IndexedDBService.fileExists` (lines 48–58): a `get` on the
`fileName` index; resolves `!!request.result`, but **rejects** with
`检查文件存在性失败` when the request errors. -/
def fileExists (env : DBEnv) (fileName : String) : Except String Bool :=
  if env.nameGetFails then .error "检查文件存在性失败"
  else .ok (env.records.any fun r => r.fileName = some fileName)

/-- The inner `checkWithIndex` helper of `fileExistsByShareLink` (lines
66–76): absent index → `false`; an erroring `get` resolves `false`;
otherwise whether some record's indexed field equals the link. -/
def checkWithIndex (env : DBEnv) (indexName : String) (link : String) : Bool :=
  if env.idxExists indexName then
    if env.idxGetFails indexName then false
    else env.records.any fun r => linkField r indexName = some link
  else false

/-- `IndexedDBService.fileExistsByShareLink` (lines 60–107): the three
index probes, then the `getAll` fallback scan over the legacy aliases;
every failure path resolves `false`, so this lookup never rejects. -/
def fileExistsByShareLink (env : DBEnv) (link : String) : Bool :=
  let foundInIndex := checkWithIndex env "shareLink" link ||
    checkWithIndex env "shareUrl" link || checkWithIndex env "originalUrl" link
  if foundInIndex then true
  else if env.getAllFails then false
  else env.records.any fun r =>
    r.shareLink = some link || r.shareUrl = some link || r.originalUrl = some link

structure DuplicateVerdict where
  «exists» : Bool
  duplicateType : String
  nameExists : Bool
  linkExists : Bool
deriving DecidableEq

/-- `IndexedDBService.checkDuplicate` (lines 109–125): `Promise.all` of
the two lookups — a rejection of `fileExists` rejects the pair — then the
verdict; the `catch` **re-throws** a wrapped error rather than degrading. -/
def checkDuplicate (env : DBEnv) (fileName shareLink : String) :
    Except String DuplicateVerdict :=
  match QuarkWeb.fileExists env fileName with
  | .error e => .error ("检查重复文件失败: " ++ e)
  | .ok nameExists =>
    let linkExists := fileExistsByShareLink env shareLink
    .ok { «exists» := nameExists || linkExists,
          duplicateType :=
            if nameExists then (if linkExists then "both" else "name")
            else (if linkExists then "link" else "none"),
          nameExists := nameExists,
          linkExists := linkExists }

/-- A healthy store: all three link indexes exist (version-2 schema) and
no request errors. -/
def cleanDB (records : List FileRecord) : DBEnv :=
  { records := records
    nameGetFails := false
    idxExists := fun _ => true
    idxGetFails := fun _ => false
    getAllFails := false }

/-- The store of the C4 scenario: exactly one record
`\x7bfileName:"A.mp4", shareLink:"L1"\x7d`. -/
def dbC4 : DBEnv :=
  cleanDB [{ fileName := some "A.mp4", shareLink := some "L1",
             shareUrl := none, originalUrl := none }]

/-- A store whose `fileName`-index lookup fails with an infrastructure
error. -/
def dbNameFail : DBEnv :=
  { cleanDB [] with nameGetFails := true }

/-- C3 (counterexample): when the `fileName`-index lookup fails with an
infrastructure error, `checkDuplicate` does **not** degrade it to "not
found": the rejection of `fileExists` rejects the `Promise.all`, the
`catch` wraps it, and `checkDuplicate` propagates an error to its caller
instead of returning a verdict. -/
theorem spec_C3_counterexample :
    checkDuplicate dbNameFail "A.mp4" "L1"
      = .error "检查重复文件失败: 检查文件存在性失败" := by
  rfl

/-- C3 (amended): only the share-link lookup degrades to "not found" on
infrastructure failure (`fileExistsByShareLink` resolves `false` on every
error path); a name-lookup failure propagates as a wrapped error.
`checkDuplicate` returns a verdict exactly when the name lookup does not
fail, regardless of any link-lookup infrastructure failure. -/
theorem spec_C3_amended (env : DBEnv) (n l : String) :
    (∃ v, checkDuplicate env n l = .ok v) ↔ env.nameGetFails = false := by
  cases h : env.nameGetFails <;>
    simp [checkDuplicate, QuarkWeb.fileExists, h]

/-- C4: on a store holding exactly the record
`\x7bfileName:"A.mp4", shareLink:"L1"\x7d`, `checkDuplicate` classifies a
name-only match, a link-only match, a double match and a non-match as
`name`, `link`, `both` and `none` respectively; and for every store state
and arguments, any verdict it returns satisfies
`exists = nameExists || linkExists`. -/
theorem spec_C4_checkDuplicate_classification :
    checkDuplicate dbC4 "A.mp4" "L2" = .ok ⟨true, "name", true, false⟩ ∧
    checkDuplicate dbC4 "B.mp4" "L1" = .ok ⟨true, "link", false, true⟩ ∧
    checkDuplicate dbC4 "A.mp4" "L1" = .ok ⟨true, "both", true, true⟩ ∧
    checkDuplicate dbC4 "C" "L3" = .ok ⟨false, "none", false, false⟩ ∧
    (∀ (env : DBEnv) (n l : String) (v : DuplicateVerdict),
      checkDuplicate env n l = .ok v → v.«exists» = (v.nameExists || v.linkExists)) := by
  refine ⟨by rfl, by rfl, by rfl, by rfl, ?_⟩
  intro env n l v h
  revert h
  unfold checkDuplicate
  cases QuarkWeb.fileExists env n with
  | error e => intro h; simp at h
  | ok b =>
    intro h
    simp only [Except.ok.injEq] at h
    rw [← h]

/-- Witness for C4's general clause, discharged at the concrete store and
the name-only duplicate query. -/
theorem spec_C4_witness :
    (DuplicateVerdict.mk true "name" true false).«exists»
      = ((DuplicateVerdict.mk true "name" true false).nameExists
          || (DuplicateVerdict.mk true "name" true false).linkExists) :=
  spec_C4_checkDuplicate_classification.2.2.2.2 dbC4 "A.mp4" "L2" _ (by rfl)

/-! ## Job polling (`QuarkWebService.task`, lines 271–291)

The shape of a task-poll response.  `status` is the definitive status
field (`""` models both an absent field and an empty string — JS
truthiness of `response?.data?.status`); `save_as` carries the save-job
payload and `share_id` the re-share-job payload (`""` = absent).
`beh i` is the outcome of the poll with `retry_index = i`: `Except.error`
models the `request` helper throwing, which the surrounding `try/catch`
turns into an immediate `null` return. -/

structure SaveAs where
  save_as_top_fids : List String
deriving DecidableEq

structure TaskData where
  status : String
  save_as : Option SaveAs
  share_id : String
deriving DecidableEq

structure TaskResp where
  data : TaskData
deriving DecidableEq

/-- The polling `for` loop: at most `fuel` more polls, current
`retry_index` is `i`.  A poll whose response carries a non-empty status
resolves the loop; a throwing poll aborts the whole loop to `none`
(caught by the `catch`); otherwise the loop continues and returns `none`
once the attempt budget is exhausted. -/
def taskLoop (beh : Nat → Except String TaskResp) : Nat → Nat → Option TaskResp
  | _, 0 => none
  | i, fuel + 1 =>
    match beh i with
    | .error _ => none
    | .ok r => if r.data.status ≠ "" then some r else taskLoop beh (i + 1) fuel

/-- `QuarkWebService.task`: poll from `retry_index = 0` with the given
attempt cap (10 in the source). -/
def task (beh : Nat → Except String TaskResp) (maxTries : Nat) : Option TaskResp :=
  taskLoop beh 0 maxTries

lemma taskLoop_none (beh : Nat → Except String TaskResp) :
    ∀ (fuel i : Nat),
      (∀ j, i ≤ j → j < i + fuel → ∀ r, beh j = .ok r → r.data.status = "") →
      taskLoop beh i fuel = none := by
  intro fuel
  induction fuel with
  | zero => intro i _; rfl
  | succ fuel ih =>
    intro i h
    unfold taskLoop
    cases hb : beh i with
    | error e => rfl
    | ok r =>
      have hst : r.data.status = "" :=
        h i (Nat.le_refl i) (by omega) r hb
      simp only [hst, ne_eq, not_true_eq_false, if_false]
      exact ih (i + 1) (fun j hj hj2 r' hr' => h j (by omega) (by omega) r' hr')

lemma taskLoop_resolve (beh : Nat → Except String TaskResp) (r : TaskResp) :
    ∀ (fuel i k : Nat), i ≤ k → k < i + fuel →
      (∀ j, i ≤ j → j < k → ∃ rj, beh j = .ok rj ∧ rj.data.status = "") →
      beh k = .ok r → r.data.status ≠ "" →
      taskLoop beh i fuel = some r := by
  intro fuel
  induction fuel with
  | zero => intro i k h1 h2; omega
  | succ fuel ih =>
    intro i k hik hlt hprev hk hst
    unfold taskLoop
    by_cases hek : i = k
    · subst hek
      rw [hk]
      simp [hst]
    · obtain ⟨ri, hri, hri0⟩ := hprev i (Nat.le_refl i) (by omega)
      rw [hri]
      simp only [hri0, ne_eq, not_true_eq_false, if_false]
      exact ih (i + 1) k (by omega) (by omega)
        (fun j hj hj2 => hprev j (by omega) hj2) hk hst

/-- C5: with the attempt cap of 10, (a) if the first nine polls return
responses with no definitive status and the tenth returns a response with
a non-empty status, the loop resolves with that response — the boundary
poll is still inside the budget; (b) if no poll among the ten carries a
non-empty status (whether polls return empty statuses or throw), the loop
returns `none` instead of throwing. -/
theorem spec_C5_task_polling :
    (∀ (beh : Nat → Except String TaskResp) (r : TaskResp),
      (∀ j, j < 9 → ∃ rj, beh j = .ok rj ∧ rj.data.status = "") →
      beh 9 = .ok r → r.data.status ≠ "" → task beh 10 = some r) ∧
    (∀ beh : Nat → Except String TaskResp,
      (∀ j, j < 10 → ∀ r, beh j = .ok r → r.data.status = "") →
      task beh 10 = none) := by
  constructor
  · intro beh r hprev h9 hst
    exact taskLoop_resolve beh r 10 0 9 (by omega) (by omega)
      (fun j _ hj2 => hprev j hj2) h9 hst
  · intro beh h
    exact taskLoop_none beh 10 0 (fun j _ hj2 r hr => h j (by omega) r hr)

/-- Poll behavior resolving exactly at the tenth poll. -/
def behC5 : Nat → Except String TaskResp := fun j =>
  if j < 9 then .ok ⟨⟨"", none, ""⟩⟩ else .ok ⟨⟨"SUCCESS", none, ""⟩⟩

/-- Poll behavior that never resolves a status. -/
def behC5none : Nat → Except String TaskResp := fun _ => .ok ⟨⟨"", none, ""⟩⟩

/-- Witness for C5: both clauses discharged on concrete poll behaviors —
resolution at the boundary poll, and exhaustion to `none`. -/
theorem spec_C5_witness :
    task behC5 10 = some ⟨⟨"SUCCESS", none, ""⟩⟩ ∧ task behC5none 10 = none :=
  ⟨spec_C5_task_polling.1 behC5 ⟨⟨"SUCCESS", none, ""⟩⟩
      (fun j hj => ⟨⟨⟨"", none, ""⟩⟩, by simp [behC5, hj], rfl⟩)
      (by simp [behC5]) (by simp),
    spec_C5_task_polling.2 behC5none
      (fun j _ r hr => by
        simp only [behC5none, Except.ok.injEq] at hr
        rw [← hr])⟩

/-! ## Five-step transfer (`QuarkWebService.store`, lines 125–186)

The environment supplies the behavior of each upstream helper exactly as
`store` observes it: `getStoken` / `saveTaskId` / `shareTaskId` /
`getShareLink` resolve a string (`""` = the helper's failure sentinel),
`detail` resolves the extracted first-entry metadata or `null`, and
`taskOf` resolves the polled task response (or `null` on exhaustion) for
a given task id.  Every behavior is `Except`-valued so that the claims'
"any step's helper throwing" is in scope; `store`'s own `try/catch`
folds any such throw into a failure outcome.  The progress callback
takes `(step, message, percent)` and may itself throw. -/

structure FileDetail where
  title : String
  file_type : String
  fid : String
  pdir_fid : String
  share_fid_token : String
deriving DecidableEq

structure TransferData where
  fileId : String
  fileName : String
  fileType : String
  shareLink : String
deriving DecidableEq

structure TransferOutcome where
  success : Bool
  message : String
  data : Option TransferData
deriving DecidableEq

structure StoreEnv where
  getStoken : String → Except String String
  detail : String → String → Except String (Option FileDetail)
  saveTaskId : String → String → String → String → Except String String
  taskOf : String → Except String (Option TaskResp)
  shareTaskId : String → String → Except String String
  getShareLink : String → Except String String

/-- A progress callback: step number (`-1` on failure), message,
percentage; `Except.error` models the callback throwing. -/
def ProgressCb : Type := Int → String → Nat → Except String Unit

/-- The body of `store`'s `try` block: the five steps in source order,
each `throw` of the source modelled as `Except.error` with the source's
message, each progress report threaded so that a throwing callback
escapes to the `catch` exactly as in JS. -/
def storeTry (env : StoreEnv) (cb : ProgressCb) (url : String) :
    Except String TransferOutcome := do
  let _ ← cb 1 "解析链接" 10
  let pwdId := getIdFromUrl url
  if pwdId = "" then throw "无法从链接中提取文件ID"
  let _ ← cb 2 "获取分享令牌" 20
  let stoken ← env.getStoken pwdId
  if stoken = "" then throw "获取分享令牌失败"
  let _ ← cb 3 "获取文件详情" 40
  let detail? ← env.detail pwdId stoken
  match detail? with
  | none => throw "获取文件详情失败"
  | some detail =>
    let fileName := detail.title
    let _ ← cb 4 "执行转存任务" 60
    let saveTaskId ← env.saveTaskId pwdId stoken detail.fid detail.share_fid_token
    if saveTaskId = "" then throw "获取保存任务ID失败"
    let taskResponse? ← env.taskOf saveTaskId
    let fids := match taskResponse? with
      | none => []
      | some r => match r.data.save_as with
        | none => []
        | some sa => sa.save_as_top_fids
    match fids with
    | [] => throw "执行保存任务失败"
    | fileId :: _ =>
      let _ ← cb 5 "生成分享链接" 80
      let shareTaskId ← env.shareTaskId fileId fileName
      if shareTaskId = "" then throw "创建分享任务失败"
      let shareTaskResponse? ← env.taskOf shareTaskId
      match shareTaskResponse? with
      | none => throw "执行分享任务失败"
      | some shareResp =>
        if shareResp.data.share_id = "" then throw "执行分享任务失败"
        let shareId := shareResp.data.share_id
        let shareLink ← env.getShareLink shareId
        if shareLink = "" then throw "获取分享链接失败"
        let _ ← cb 5 "转存完成" 100
        pure { success := true
               message := "文件转存成功: " ++ fileName
               data := some { fileId := fileId, fileName := fileName,
                              fileType := detail.file_type,
                              shareLink := shareLink } }

/-- `QuarkWebService.store`: the `try` body wrapped by the `catch` that
reports the failure through the callback once more (step `-1`) and
returns a `success: false` outcome.  The overall `Except.error` case is
`store` itself rejecting, which happens only when the callback throws
inside the `catch`. -/
def store (env : StoreEnv) (cb : ProgressCb) (url : String) :
    Except String TransferOutcome :=
  match storeTry env cb url with
  | .ok o => .ok o
  | .error e =>
    match cb (-1) ("转存失败: " ++ e) 0 with
    | .ok _ => .ok { success := false, message := "转存失败: " ++ e, data := none }
    | .error e2 => .error e2

/-- A progress callback that never throws. -/
def benignCb : ProgressCb := fun _ _ _ => .ok ()

/-- The mocked upstream of the end-to-end scenario: token `tok1`, one
file `movie.mp4`, save job resolving to `save_as_top_fids = [newid1]`,
share job resolving to `share_id = sh1`, share-link response
`https://pan.quark.cn/s/newlink`. -/
def envC1 : StoreEnv :=
  { getStoken := fun pwdId => .ok (if pwdId = "abc123" then "tok1" else "")
    detail := fun _ _ =>
      .ok (some { title := "movie.mp4", file_type := "mp4", fid := "f1",
                  pdir_fid := "0", share_fid_token := "sft1" })
    saveTaskId := fun _ _ _ _ => .ok "save-task-1"
    taskOf := fun taskId =>
      .ok (if taskId = "save-task-1" then
             some ⟨⟨"2", some ⟨["newid1"]⟩, ""⟩⟩
           else if taskId = "share-task-1" then
             some ⟨⟨"2", none, "sh1"⟩⟩
           else none)
    shareTaskId := fun _ _ => .ok "share-task-1"
    getShareLink := fun shareId =>
      .ok (if shareId = "sh1" then "https://pan.quark.cn/s/newlink" else "") }

/-- C1: on the share URL `https://pan.quark.cn/s/abc123` against the
mocked upstream `envC1`, the five-step sequence succeeds and produces the
outcome with `fileId = "newid1"`, `fileName = "movie.mp4"` and
`shareLink = "https://pan.quark.cn/s/newlink"` (the outcome additionally
carries the file type from the detail step). -/
theorem spec_C1_end_to_end :
    store envC1 benignCb "https://pan.quark.cn/s/abc123"
      = .ok { success := true
              message := "文件转存成功: movie.mp4"
              data := some { fileId := "newid1", fileName := "movie.mp4",
                             fileType := "mp4",
                             shareLink := "https://pan.quark.cn/s/newlink" } } := by
  rfl

/-- A progress callback that throws on its first invocation (step 1) and
behaves normally afterwards. -/
def cbThrowFirst : ProgressCb := fun step _ _ =>
  if step = 1 then .error "进度回调异常" else .ok ()

/-- C9 (counterexample): the progress callback is not fire-and-forget.
Against the fully successful upstream `envC1`, a callback that throws on
its first invocation changes the transfer outcome: the exception lands in
`store`'s `catch`, the remaining steps are skipped, and the result is a
`success: false` outcome — different from the successful outcome the same
environment produces with a non-throwing callback. -/
theorem spec_C9_counterexample :
    store envC1 cbThrowFirst "https://pan.quark.cn/s/abc123"
      = .ok { success := false, message := "转存失败: 进度回调异常", data := none } ∧
    store envC1 cbThrowFirst "https://pan.quark.cn/s/abc123"
      ≠ store envC1 benignCb "https://pan.quark.cn/s/abc123" := by
  constructor
  · rfl
  · intro h
    rw [show store envC1 cbThrowFirst "https://pan.quark.cn/s/abc123"
          = .ok { success := false, message := "转存失败: 进度回调异常",
                  data := none } from rfl,
        show store envC1 benignCb "https://pan.quark.cn/s/abc123"
          = .ok { success := true, message := "文件转存成功: movie.mp4",
                  data := some { fileId := "newid1", fileName := "movie.mp4",
                                 fileType := "mp4",
                                 shareLink := "https://pan.quark.cn/s/newlink" } }
          from rfl] at h
    simp at h

/-- C9 (amended): an exception thrown by the progress callback propagates
into `store`'s `try` block and is handled like a step failure: when the
first progress report throws, `store` skips all transfer steps, reports
the failure through the callback once more (step `-1`), and returns a
`success: false` outcome with the callback's error message — or rejects
outright if the callback throws again on that final report.  The outcome
therefore differs, in general, from the outcome under a non-throwing
callback. -/
theorem spec_C9_amended (env : StoreEnv) (cb : ProgressCb) (url : String)
    (e : String) (h : cb 1 "解析链接" 10 = .error e) :
    store env cb url
      = (match cb (-1) ("转存失败: " ++ e) 0 with
         | .ok _ => .ok { success := false, message := "转存失败: " ++ e,
                          data := none }
         | .error e2 => .error e2) := by
  unfold store storeTry
  rw [h]
  rfl

/-- Witness for C9 (amended): the first-report-throwing callback against
the successful upstream. -/
theorem spec_C9_amended_witness :
    store envC1 cbThrowFirst "https://pan.quark.cn/s/abc123"
      = (match cbThrowFirst (-1) ("转存失败: " ++ "进度回调异常") 0 with
         | .ok _ => .ok { success := false,
                          message := "转存失败: " ++ "进度回调异常", data := none }
         | .error e2 => .error e2) :=
  spec_C9_amended envC1 cbThrowFirst "https://pan.quark.cn/s/abc123"
    "进度回调异常" (by rfl)

/-- C10: as long as the progress callback itself never throws, `store`
never rejects, whatever the environment does — every helper may throw or
return its failure sentinel and `store` still resolves to an outcome
object (with its boolean `success` and string `message`; on failure the
`data` field is absent). -/
theorem spec_C10_store_never_rejects (env : StoreEnv) (cb : ProgressCb)
    (url : String) (hcb : ∀ s m p, cb s m p = .ok ()) :
    ∃ o : TransferOutcome, store env cb url = .ok o := by
  unfold store
  cases h : storeTry env cb url with
  | ok o => exact ⟨o, rfl⟩
  | error e =>
    refine ⟨{ success := false, message := "转存失败: " ++ e, data := none }, ?_⟩
    simp only [hcb]

/-- Witness for C10 on the concrete scenario environment and the benign
callback. -/
theorem spec_C10_witness :
    ∃ o : TransferOutcome,
      store envC1 benignCb "https://pan.quark.cn/s/abc123" = .ok o :=
  spec_C10_store_never_rejects envC1 benignCb "https://pan.quark.cn/s/abc123"
    (fun _ _ _ => rfl)

/-! ## Batch transfer (`TransferPanel.handleBatchTransfer`, lines 173–291)

Per-link behavior of the collaborators as the loop body observes them:
`extractFileName` never throws (it catches internally and returns `null`),
`checkDuplicate`, `store` and `insertFile` may throw — every such throw is
caught by the loop body's `try/catch` and becomes a failure entry for that
link alone.  One `batchResults.push` happens per iteration, paired with
exactly one counter increment (`skipCount` on the duplicate branch,
`successCount` on the success branch, `failCount` on the failure branch
and in the `catch`). -/

structure BatchItem where
  link : String
  success : Bool
  message : Option String
  skipped : Bool
  duplicateType : Option String
  fileName : Option String
  data : Option TransferData
deriving DecidableEq

structure LinkBeh where
  /-- result of `extractFileName` (total: the helper catches internally) -/
  fileName : Option String
  /-- behavior of `dbService.checkDuplicate` for this link -/
  dupCheck : Except String DuplicateVerdict
  /-- behavior of `quarkService.store(link)` -/
  storeRes : Except String TransferOutcome
  /-- behavior of `dbService.insertFile` -/
  insert : Except String Unit

/-- The `duplicateTypeText` ternary of the source. -/
def dupTypeText (t : String) : String :=
  if t = "both" then "文件名和链接都" else if t = "name" then "文件名" else "链接"

/-- The body of the inner `try` of one loop iteration: duplicate check
and skip entry, then the transfer, record insertion and success entry, or
a failure entry; any `Except.error` escapes to the iteration's `catch`. -/
def processLinkE (b : LinkBeh) (link : String) : Except String BatchItem := do
  match b.fileName with
  | some name =>
    let v ← b.dupCheck
    if v.«exists» then
      return { link := link, success := false,
               message := some ("文件 \"" ++ name ++ "\" 已存在（"
                 ++ dupTypeText v.duplicateType ++ "重复），跳过转存"),
               skipped := true,
               duplicateType := some (dupTypeText v.duplicateType),
               fileName := some name, data := none }
    else
      pure ()
  | none => pure ()
  let result ← b.storeRes
  if result.success then
    match result.data with
    | none =>
      -- JS TypeError when reading `result.data.fileId` off `undefined`
      throw "Cannot read properties of undefined"
    | some d => do
      let _ ← b.insert
      return { link := link, success := true, message := none,
               skipped := false, duplicateType := none, fileName := none,
               data := some d }
  else
    return { link := link, success := false, message := some result.message,
             skipped := false, duplicateType := none, fileName := none,
             data := none }

/-- One loop iteration with its `catch`: a throw anywhere in the body
becomes a failure entry for this link. -/
def processLink (b : LinkBeh) (link : String) : BatchItem :=
  match processLinkE b link with
  | .ok item => item
  | .error e =>
    { link := link, success := false, message := some e, skipped := false,
      duplicateType := none, fileName := none, data := none }

/-- The `for` loop of `handleBatchTransfer`: one entry per detected link,
in input order, iteration `i` driven by that link's own behavior. -/
def runBatch (beh : Nat → LinkBeh) : List String → Nat → List BatchItem
  | [], _ => []
  | l :: ls, i => processLink (beh i) l :: runBatch beh ls (i + 1)

/-- The counter increment paired with an entry's push: the duplicate
branch bumps `skipCount`, the success branch `successCount`, the failure
branch and the `catch` `failCount`. -/
def countDelta (it : BatchItem) : Nat × Nat × Nat :=
  if it.skipped then (0, 0, 1) else if it.success then (1, 0, 0) else (0, 1, 0)

/-- `(successCount, failCount, skipCount)` accumulated over the
entries. -/
def batchCounts : List BatchItem → Nat × Nat × Nat
  | [] => (0, 0, 0)
  | it :: rest =>
    let d := countDelta it
    let c := batchCounts rest
    (d.1 + c.1, d.2.1 + c.2.1, d.2.2 + c.2.2)

lemma runBatch_length (beh : Nat → LinkBeh) :
    ∀ (ls : List String) (i : Nat), (runBatch beh ls i).length = ls.length := by
  intro ls
  induction ls with
  | nil => intro i; rfl
  | cons l ls ih => intro i; simp [runBatch, ih]

lemma runBatch_getElem (beh : Nat → LinkBeh) :
    ∀ (ls : List String) (i₀ i : Nat),
      (runBatch beh ls i₀)[i]? = (ls[i]?).map (fun l => processLink (beh (i₀ + i)) l) := by
  intro ls
  induction ls with
  | nil => intro i₀ i; simp [runBatch]
  | cons l ls ih =>
    intro i₀ i
    cases i with
    | zero => simp [runBatch]
    | succ i =>
      simp only [runBatch, List.getElem?_cons_succ]
      rw [ih (i₀ + 1) i]
      have : i₀ + 1 + i = i₀ + (i + 1) := by omega
      rw [this]

lemma batchCounts_total :
    ∀ items : List BatchItem,
      (batchCounts items).1 + (batchCounts items).2.1 + (batchCounts items).2.2
        = items.length := by
  intro items
  induction items with
  | nil => rfl
  | cons it rest ih =>
    simp only [batchCounts, List.length_cons]
    by_cases hs : it.skipped
    · simp [countDelta, hs]; omega
    · by_cases hx : it.success
      · simp [countDelta, hs, hx]; omega
      · simp [countDelta, hs, hx]; omega

/-- Per-link behaviors for the `[linkA, linkB, linkC]` scenario: linkA
transfers successfully, linkB's transfer throws, linkC is a name
duplicate and is skipped. -/
def behTriple : Nat → LinkBeh := fun i =>
  if i = 0 then
    { fileName := none, dupCheck := .ok ⟨false, "none", false, false⟩,
      storeRes := .ok { success := true, message := "文件转存成功: a.mp4",
                        data := some { fileId := "fidA", fileName := "a.mp4",
                                       fileType := "mp4", shareLink := "LA" } },
      insert := .ok () }
  else if i = 1 then
    { fileName := none, dupCheck := .ok ⟨false, "none", false, false⟩,
      storeRes := .error "linkB transfer exception", insert := .ok () }
  else
    { fileName := some "c.mp4",
      dupCheck := .ok ⟨true, "name", true, false⟩,
      storeRes := .ok { success := false, message := "unreached", data := none },
      insert := .ok () }

/-- C6: the batch loop produces exactly one entry per detected link, in
input order; entry `i` is a function of link `i`'s own behavior alone, so
one link's exception is converted into a failure entry for that link only
and cannot affect the others; the three counters always sum to the number
of links; and on `[linkA, linkB, linkC]` with linkB's transfer throwing,
the result is exactly three entries with linkA's success and linkC's skip
untouched. -/
theorem spec_C6_batch_isolation :
    (∀ (links : List String) (beh : Nat → LinkBeh),
      (runBatch beh links 0).length = links.length) ∧
    (∀ (links : List String) (beh : Nat → LinkBeh) (i : Nat),
      (runBatch beh links 0)[i]? = (links[i]?).map (fun l => processLink (beh i) l)) ∧
    (∀ (links : List String) (beh : Nat → LinkBeh),
      (batchCounts (runBatch beh links 0)).1 + (batchCounts (runBatch beh links 0)).2.1
        + (batchCounts (runBatch beh links 0)).2.2 = links.length) ∧
    runBatch behTriple ["linkA", "linkB", "linkC"] 0 =
      [{ link := "linkA", success := true, message := none, skipped := false,
         duplicateType := none, fileName := none,
         data := some { fileId := "fidA", fileName := "a.mp4",
                        fileType := "mp4", shareLink := "LA" } },
       { link := "linkB", success := false,
         message := some "linkB transfer exception", skipped := false,
         duplicateType := none, fileName := none, data := none },
       { link := "linkC", success := false,
         message := some "文件 \"c.mp4\" 已存在（文件名重复），跳过转存",
         skipped := true, duplicateType := some "文件名",
         fileName := some "c.mp4", data := none }] := by
  refine ⟨fun links beh => runBatch_length beh links 0,
          fun links beh i => ?_,
          fun links beh => by
            rw [batchCounts_total, runBatch_length],
          by rfl⟩
  have h := runBatch_getElem beh links 0 i
  simpa using h

end QuarkWeb
